import Mathlib

/-!
Shallow embedding of the GoldenArabicAI backend (src/index.js,
src/unnamed/part_000, src/unnamed/part_001) together with the per-user
credit ledger described in the repository specification, and proofs of
the claimed properties.
-/

/-- Model of a JavaScript value as far as the request handlers inspect one:
a string, a number, a boolean, or null. -/
inductive JSVal where
  | vStr : String → JSVal
  | vNum : Int → JSVal
  | vBool : Bool → JSVal
  | vNull : JSVal
  deriving DecidableEq, Repr

/-- JavaScript truthiness for the modelled values: empty string, zero,
false and null are falsy. -/
def truthy : JSVal → Bool
  | JSVal.vStr s => s != ""
  | JSVal.vNum n => n != 0
  | JSVal.vBool b => b
  | JSVal.vNull => false

/-- Outcome of the JavaScript typeof test for the string type. -/
def isString : JSVal → Bool
  | JSVal.vStr _ => true
  | _ => false

/-- Model of JavaScript String.prototype.trim: strip the leading and the
trailing run of whitespace characters. -/
def jsTrim (s : String) : String :=
  String.mk (((s.data.dropWhile Char.isWhitespace).reverse.dropWhile
      Char.isWhitespace).reverse)

/-- Validation test of src/index.js line 163 in the api chat handler:
the request is rejected when message is absent, falsy, not a string, or
trims to the empty string. -/
def messageInvalid : Option JSVal → Bool
  | none => true
  | some v =>
    if !truthy v then true
    else if !isString v then true
    else
      match v with
      | JSVal.vStr s => jsTrim s == ""
      | _ => true

/-- Payload returned by a successful AI handler call, abstracted to its
serialized form: the handlers only forward it with res.json. -/
structure AIResult where
  payload : String
  deriving DecidableEq, Repr

/-- Outcome of the single dispatched external inference interaction: the
chosen AI handler either returns a result or throws an error carrying a
message. Each handler performs its external calls exactly once, with no
retry loop, so one oracle outcome models the whole dispatched call. -/
inductive AIOutcome where
  | ok : AIResult → AIOutcome
  | err : String → AIOutcome
  deriving DecidableEq, Repr

/-- HTTP response as the handlers build one: a status code, the error and
arabicError fields of the JSON body when present, and the result payload
when present. -/
structure Response where
  status : Nat
  error : Option String
  arabicError : Option String
  result : Option AIResult
  deriving DecidableEq, Repr

/-- Body of a POST api chat request, carrying the fields the handlers
read: message and actionType. -/
structure ChatBody where
  message : Option JSVal
  actionType : Option String
  deriving DecidableEq, Repr

/-- Error message surfaced by the catch branch of src/index.js lines
186 to 193: the best available message, or the default Arabic text when
that message is empty (falsy). -/
def surfaceMsg (m : String) : String :=
  if m = "" then "حدث خطأ أثناء المعالجة" else m

/-- Arabic error text for an empty message, src/index.js line 164. -/
def errEmptyMessage : String := "الرسالة فارغة"

/-- Arabic error text for a missing OpenAI key, src/index.js line 167. -/
def errNoApiKey : String := "مفتاح OpenAI غير مضبوط على الخادم."

/-- The POST api chat handler of src/index.js lines 160 to 194. Returns
the response together with the number of dispatched external inference
calls the handler performed. -/
def apiChat (body : ChatBody) (apiKeySet : Bool) (infer : AIOutcome) :
    Response × Nat :=
  if messageInvalid body.message then
    ({ status := 400, error := some errEmptyMessage,
       arabicError := some errEmptyMessage, result := none }, 0)
  else if !apiKeySet then
    ({ status := 500, error := some errNoApiKey,
       arabicError := some errNoApiKey, result := none }, 0)
  else
    match infer with
    | AIOutcome.ok r =>
      ({ status := 200, error := none, arabicError := none,
         result := some r }, 1)
    | AIOutcome.err m =>
      ({ status := 500, error := some (surfaceMsg m),
         arabicError := some (surfaceMsg m), result := none }, 1)

/-- Arabic error map of src/unnamed/part_000 lines 225 to 230, indexed by
actionType with a default entry. -/
def errorMessagesP0 (actionType : Option String) : String :=
  match actionType with
  | some "image" => "عذراً، حدث خطأ أثناء إنشاء الصورة. يرجى المحاولة مرة أخرى."
  | some "code" => "عذراً، حدث خطأ أثناء إنشاء الكود. يرجى المحاولة مرة أخرى."
  | some "translate" => "عذراً، حدث خطأ أثناء الترجمة. يرجى المحاولة مرة أخرى."
  | _ => "عذراً، حدث خطأ في الاتصال بالذكاء الاصطناعي. يرجى المحاولة مرة أخرى."

/-- Authenticated session user as passport stores one, with the fields the
handlers read; an absent photo is the empty string (falsy). -/
structure SessionUser where
  name : String
  email : String
  photo : String
  deriving DecidableEq, Repr

/-- The POST api chat handler of src/unnamed/part_000 lines 183 to 237.
Returns the response together with the number of dispatched external
inference calls. The side effect on the chat history map is modelled
separately by saveChatMessage. -/
def apiChatP0 (user : Option SessionUser) (body : ChatBody)
    (infer : AIOutcome) : Response × Nat :=
  match user with
  | none =>
    ({ status := 401, error := some "يجب تسجيل الدخول أولاً",
       arabicError := some "يرجى تسجيل الدخول لاستخدام الذكاء الاصطناعي",
       result := none }, 0)
  | some _ =>
    match infer with
    | AIOutcome.ok r =>
      ({ status := 200, error := none, arabicError := none,
         result := some r }, 1)
    | AIOutcome.err m =>
      ({ status := 500, error := some m,
         arabicError := some (errorMessagesP0 body.actionType),
         result := none }, 1)

/-- JSON body of a GET api me response, with the fields the handler of
src/index.js lines 123 to 137 emits. -/
structure MeResponse where
  loggedIn : Bool
  name : Option String
  email : Option String
  photo : Option String
  plan : String
  balance : Int
  joinDate : Option String
  deriving DecidableEq, Repr

/-- Model of new Date toISOString split on the letter T taking component
zero, as in src/index.js line 135: the prefix of the ISO timestamp string
before the first letter T. -/
def isoDatePart (now : String) : String :=
  String.mk (now.data.takeWhile (fun c => c != 'T'))

/-- The GET api me handler of src/index.js lines 123 to 137, as a function
of the session user and of the current time rendered as an ISO timestamp
string. -/
def apiMe (user : Option SessionUser) (now : String) : MeResponse :=
  match user with
  | none =>
    { loggedIn := false, name := none, email := none, photo := none,
      plan := "free", balance := 0, joinDate := none }
  | some u =>
    { loggedIn := true, name := some u.name, email := some u.email,
      photo := some (if u.photo = "" then "/default-avatar.png" else u.photo),
      plan := "free", balance := 0,
      joinDate := some (isoDatePart now) }

/-- One entry of the in-memory chat history of src/unnamed/part_000. -/
structure ChatEntry where
  timestamp : String
  userMessage : String
  aiResponse : String
  actionType : Option String
  deriving DecidableEq, Repr

/-- The saveChatMessage utility of src/unnamed/part_000 lines 417 to 434,
acting on the history list of one user email: push the new entry, then
keep only the last 50 entries when the length exceeds 50 (slice of the
last 50). -/
def saveChatMessage (history : List ChatEntry) (entry : ChatEntry) :
    List ChatEntry :=
  if (history ++ [entry]).length > 50 then
    (history ++ [entry]).drop ((history ++ [entry]).length - 50)
  else history ++ [entry]

/-- Modelled from the spec: the typed error taxonomy of spec section 7;
the ledger service itself is absent from src. -/
inductive LedgerError where
  | insufficientBalance : LedgerError
  | premiumRequired : LedgerError
  | invalidIdentity : LedgerError
  deriving DecidableEq, Repr

/-- Modelled from the spec: one record of the persistent user store of
spec sections 3 and 6 (the store and ledger code is absent from src).
Timestamps are modelled as epoch milliseconds in place of their ISO-8601
rendering; the balance is an integer so that the non-negativity invariant
is a statement rather than a typing artifact. -/
structure UserRecord where
  name : String
  golden_balance : Int
  subscriptions : List (String × Nat)
  created_at : Nat
  deriving DecidableEq, Repr

/-- Lookup of a user record by key in the association-list store. -/
def lookupUser : List (String × UserRecord) → String → Option UserRecord
  | [], _ => none
  | (k, r) :: rest, key => if k = key then some r else lookupUser rest key

/-- Write of a user record by key: replace the first binding of the key,
or append a new binding when the key is absent. -/
def setUser : List (String × UserRecord) → String → UserRecord →
    List (String × UserRecord)
  | [], key, r => [(key, r)]
  | (k, r0) :: rest, key, r =>
    if k = key then (key, r) :: rest else (k, r0) :: setUser rest key r

/-- Lookup of a subscription expiry by feature name. -/
def lookupSub : List (String × Nat) → String → Option Nat
  | [], _ => none
  | (f, t) :: rest, feature => if f = feature then some t else lookupSub rest feature

/-- Write of a subscription expiry by feature name: replace the first
binding, or append when the feature is absent. -/
def setSub : List (String × Nat) → String → Nat → List (String × Nat)
  | [], feature, t => [(feature, t)]
  | (f, t0) :: rest, feature, t =>
    if f = feature then (feature, t) :: rest else (f, t0) :: setSub rest feature t

/-- Modelled from the spec: getBalance of spec section 4.1 (absent from
src). Returns 0 when the user key is unknown, never errs. -/
def getBalance (users : List (String × UserRecord)) (key : String) : Int :=
  match lookupUser users key with
  | some r => r.golden_balance
  | none => 0

/-- Thirty days in epoch milliseconds. -/
def thirtyDaysMs : Nat := 30 * 24 * 60 * 60 * 1000

/-- Record written back by a successful unlockFeature call: the existing
record of the user (an unknown user is treated as a fresh zero-balance
record), with the balance debited by the cost and the subscription expiry
of the feature set to now plus 30 days. -/
def unlockedRec (users : List (String × UserRecord)) (key feature : String)
    (cost : Int) (now : Nat) : UserRecord :=
  let r := (lookupUser users key).getD
    { name := "", golden_balance := 0, subscriptions := [], created_at := now }
  { r with golden_balance := getBalance users key - cost,
           subscriptions := setSub r.subscriptions feature (now + thirtyDaysMs) }

/-- Modelled from the spec: unlockFeature of spec section 4.1 (absent from
src). Fails with insufficientBalance when the balance is below the cost,
with no mutation; on success debits the cost and sets the subscription
expiry of the feature to now plus 30 days, treating an unknown user as a
zero-balance record. -/
def unlockFeature (users : List (String × UserRecord)) (key feature : String)
    (cost : Int) (now : Nat) :
    Except LedgerError (List (String × UserRecord) × Int) :=
  if getBalance users key < cost then
    Except.error LedgerError.insufficientBalance
  else
    Except.ok (setUser users key (unlockedRec users key feature cost now),
               getBalance users key - cost)

/-- The store that results from an unlockFeature call: the new store on
success, the unchanged store on failure (no mutation occurs then). -/
def unlockStoreAfter (users : List (String × UserRecord))
    (key feature : String) (cost : Int) (now : Nat) :
    List (String × UserRecord) :=
  match unlockFeature users key feature cost now with
  | Except.ok (s2, _) => s2
  | Except.error _ => users

/-- Subscription expiry recorded in the store for a user key and a
feature name, when both exist. -/
def subExpiry (users : List (String × UserRecord)) (key feature : String) :
    Option Nat :=
  match lookupUser users key with
  | some r => lookupSub r.subscriptions feature
  | none => none

/-- Modelled from the spec: deriveKey of spec section 4.2 (absent from
src). Fails with invalidIdentity when either input is empty, else returns
the external id, an at sign, and the provider name. -/
def deriveKey (externalId providerName : String) : Except LedgerError String :=
  if externalId = "" ∨ providerName = "" then
    Except.error LedgerError.invalidIdentity
  else Except.ok (externalId ++ "@" ++ providerName)

/-- Modelled from the spec: requirePremium of spec section 4.1 (absent
from src). Fails with premiumRequired exactly when the requested plan is
premium and the user is not premium; otherwise a no-op. -/
def requirePremium (requestedPlan : String) (userIsPremium : Bool) :
    Except LedgerError Unit :=
  if requestedPlan = "premium" ∧ userIsPremium = false then
    Except.error LedgerError.premiumRequired
  else Except.ok ()

/-- Modelled from the spec: n unlockFeature calls for one user key under
the per-key serialization spec section 5 demands, which makes the
concurrent calls execute in some serial order; the serial composition is
that order. Returns the number of calls that succeeded and the final
store; a failed call leaves the store unchanged. -/
def iterUnlock (key feature : String) (cost : Int) (now : Nat) :
    Nat → List (String × UserRecord) → Nat × List (String × UserRecord)
  | 0, users => (0, users)
  | Nat.succ n, users =>
    match unlockFeature users key feature cost now with
    | Except.ok (s2, _) =>
      let p := iterUnlock key feature cost now n s2
      (p.1 + 1, p.2)
    | Except.error _ => iterUnlock key feature cost now n users

/-- Concrete user record for witnesses. -/
def demoRec : UserRecord :=
  { name := "u", golden_balance := 100, subscriptions := [], created_at := 0 }

/-- Concrete one-user store for witnesses. -/
def demoUsers : List (String × UserRecord) := [("123@google", demoRec)]

/-- Concrete session user for witnesses. -/
def demoUser : SessionUser :=
  { name := "Test", email := "t@example.com", photo := "" }

/-- Looking up the key just written by setUser yields the written record. -/
theorem lookupUser_setUser_self (users : List (String × UserRecord))
    (key : String) (r : UserRecord) :
    lookupUser (setUser users key r) key = some r := by
  induction users with
  | nil => simp [setUser, lookupUser]
  | cons p rest ih =>
    obtain ⟨k, r0⟩ := p
    by_cases h : k = key
    · simp [setUser, h, lookupUser]
    · simp [setUser, h, lookupUser, ih]

/-- Looking up the feature just written by setSub yields the written
expiry. -/
theorem lookupSub_setSub_self (subs : List (String × Nat))
    (feature : String) (t : Nat) :
    lookupSub (setSub subs feature t) feature = some t := by
  induction subs with
  | nil => simp [setSub, lookupSub]
  | cons p rest ih =>
    obtain ⟨f, t0⟩ := p
    by_cases h : f = feature
    · simp [setSub, h, lookupSub]
    · simp [setSub, h, lookupSub, ih]

/-- The balance read back after a setUser write is the written balance. -/
theorem getBalance_setUser_self (users : List (String × UserRecord))
    (key : String) (r : UserRecord) :
    getBalance (setUser users key r) key = r.golden_balance := by
  unfold getBalance
  rw [lookupUser_setUser_self]

/-- A sufficiently funded unlockFeature call returns the debited store. -/
theorem unlockFeature_ok (users : List (String × UserRecord))
    (key feature : String) (cost : Int) (now : Nat)
    (h : cost ≤ getBalance users key) :
    unlockFeature users key feature cost now =
      Except.ok (setUser users key (unlockedRec users key feature cost now),
                 getBalance users key - cost) := by
  unfold unlockFeature
  rw [if_neg (not_lt.mpr h)]

/-- C1: for every user u with balance b, every feature name f, and every
cost c with 0 ≤ c ≤ b, unlockFeature succeeds, decrements the balance of
u by exactly c (getBalance equals b minus c afterward), and sets the
subscription of f to a timestamp 30 days in the future. -/
theorem unlockFeature_success_spec (users : List (String × UserRecord))
    (key feature : String) (cost : Int) (now : Nat)
    (_hc : 0 ≤ cost) (h : cost ≤ getBalance users key) :
    ∃ s2, unlockFeature users key feature cost now =
        Except.ok (s2, getBalance users key - cost) ∧
      getBalance s2 key = getBalance users key - cost ∧
      subExpiry s2 key feature = some (now + thirtyDaysMs) := by
  refine ⟨setUser users key (unlockedRec users key feature cost now),
    unlockFeature_ok users key feature cost now h, ?_, ?_⟩
  · rw [getBalance_setUser_self]
    rfl
  · unfold subExpiry
    rw [lookupUser_setUser_self]
    exact lookupSub_setSub_self _ feature _

/-- Witness for C1 at a concrete store: balance 100, cost 40. -/
theorem unlockFeature_success_spec_witness :
    0 ≤ (40 : Int) ∧ (40 : Int) ≤ getBalance demoUsers "123@google" ∧
    ∃ s2, unlockFeature demoUsers "123@google" "pro" 40 1000 =
        Except.ok (s2, getBalance demoUsers "123@google" - 40) ∧
      getBalance s2 "123@google" = getBalance demoUsers "123@google" - 40 ∧
      subExpiry s2 "123@google" "pro" = some (1000 + thirtyDaysMs) := by
  refine ⟨by decide, by decide, ?_⟩
  exact unlockFeature_success_spec demoUsers "123@google" "pro" 40 1000
    (by decide) (by decide)

/-- C2: for every user u with balance b and every cost c with c greater
than b, unlockFeature fails with insufficientBalance and performs no
mutation (the store is unchanged, hence the balance and the subscriptions
are unchanged); moreover no successful debit ever leaves a negative
balance. -/
theorem unlockFeature_insufficient_spec (users : List (String × UserRecord))
    (key feature : String) (cost : Int) (now : Nat) :
    (getBalance users key < cost →
      unlockFeature users key feature cost now =
        Except.error LedgerError.insufficientBalance ∧
      unlockStoreAfter users key feature cost now = users) ∧
    (∀ s2 nb, unlockFeature users key feature cost now = Except.ok (s2, nb) →
      0 ≤ nb) := by
  constructor
  · intro h
    have he : unlockFeature users key feature cost now =
        Except.error LedgerError.insufficientBalance := by
      unfold unlockFeature
      rw [if_pos h]
    refine ⟨he, ?_⟩
    unfold unlockStoreAfter
    rw [he]
  · intro s2 nb hok
    by_cases h : getBalance users key < cost
    · exfalso
      unfold unlockFeature at hok
      rw [if_pos h] at hok
      exact Except.noConfusion hok
    · rw [unlockFeature_ok users key feature cost now (not_lt.mp h)] at hok
      simp only [Except.ok.injEq, Prod.mk.injEq] at hok
      obtain ⟨-, h2⟩ := hok
      omega

/-- Witness for C2 at a concrete store: balance 100, cost 200. -/
theorem unlockFeature_insufficient_spec_witness :
    getBalance demoUsers "123@google" < 200 ∧
    unlockFeature demoUsers "123@google" "pro" 200 1000 =
      Except.error LedgerError.insufficientBalance ∧
    unlockStoreAfter demoUsers "123@google" "pro" 200 1000 = demoUsers := by
  have h := (unlockFeature_insufficient_spec demoUsers "123@google" "pro"
    200 1000).1 (by decide)
  exact ⟨by decide, h.1, h.2⟩

/-- C4: under the per-key serialization the spec demands, n concurrent
unlockFeature calls for one user key execute in some serial order; n such
calls against an initial balance of exactly n times the cost all succeed
and leave the final balance exactly 0, with no lost update. -/
theorem concurrent_unlock_serialized (n : Nat)
    (users : List (String × UserRecord)) (key feature : String)
    (cost : Int) (now : Nat) (hc : 0 ≤ cost)
    (hb : getBalance users key = (n : Int) * cost) :
    (iterUnlock key feature cost now n users).1 = n ∧
    getBalance (iterUnlock key feature cost now n users).2 key = 0 := by
  induction n generalizing users with
  | zero =>
    refine ⟨rfl, ?_⟩
    simpa [iterUnlock] using hb
  | succ n ih =>
    have hnn : 0 ≤ (n : Int) * cost :=
      mul_nonneg (Int.natCast_nonneg n) hc
    have hge : cost ≤ getBalance users key := by
      rw [hb]
      push_cast
      nlinarith
    have hok := unlockFeature_ok users key feature cost now hge
    have hbal2 : getBalance
        (setUser users key (unlockedRec users key feature cost now)) key =
        (n : Int) * cost := by
      rw [getBalance_setUser_self]
      show getBalance users key - cost = (n : Int) * cost
      rw [hb]
      push_cast
      ring
    have hrec := ih _ hbal2
    simp only [iterUnlock, hok]
    exact ⟨by rw [hrec.1], hrec.2⟩

/-- Witness for C4 at a concrete store: 4 calls of cost 25 against
balance 100. -/
theorem concurrent_unlock_serialized_witness :
    0 ≤ (25 : Int) ∧
    getBalance demoUsers "123@google" = ((4 : Nat) : Int) * 25 ∧
    (iterUnlock "123@google" "pro" 25 0 4 demoUsers).1 = 4 ∧
    getBalance (iterUnlock "123@google" "pro" 25 0 4 demoUsers).2
      "123@google" = 0 := by
  have h := concurrent_unlock_serialized 4 demoUsers "123@google" "pro" 25 0
    (by decide) (by decide)
  exact ⟨by decide, by decide, h.1, h.2⟩

/-- C3: for every user key unknown to the store, getBalance returns 0 and
never errs; correspondingly, GET api me for an unauthenticated request
reports loggedIn false and balance 0. -/
theorem getBalance_unknown_me_unauth (users : List (String × UserRecord))
    (key : String) (now : String) :
    (lookupUser users key = none → getBalance users key = 0) ∧
    (apiMe none now).loggedIn = false ∧ (apiMe none now).balance = 0 := by
  refine ⟨fun h => ?_, rfl, rfl⟩
  unfold getBalance
  rw [h]

/-- Witness for C3 at a concrete store and key absent from it. -/
theorem getBalance_unknown_me_unauth_witness :
    lookupUser demoUsers "999@github" = none ∧
    getBalance demoUsers "999@github" = 0 ∧
    (apiMe none "2024-05-01T00:00:00.000Z").loggedIn = false ∧
    (apiMe none "2024-05-01T00:00:00.000Z").balance = 0 := by
  have h := getBalance_unknown_me_unauth demoUsers "999@github"
    "2024-05-01T00:00:00.000Z"
  exact ⟨by decide, h.1 (by decide), h.2.1, h.2.2⟩

/-- C5: for all non-empty strings, deriveKey returns the external id, an
at sign, and the provider name; it fails with invalidIdentity when either
input is empty. -/
theorem deriveKey_spec (e p : String) :
    (e ≠ "" → p ≠ "" → deriveKey e p = Except.ok (e ++ "@" ++ p)) ∧
    ((e = "" ∨ p = "") →
      deriveKey e p = Except.error LedgerError.invalidIdentity) := by
  constructor
  · intro he hp
    unfold deriveKey
    rw [if_neg (not_or.mpr ⟨he, hp⟩)]
  · intro h
    unfold deriveKey
    rw [if_pos h]

/-- Witness for C5 at the concrete inputs of the spec examples. -/
theorem deriveKey_spec_witness :
    deriveKey "123" "google" = Except.ok "123@google" ∧
    deriveKey "" "google" = Except.error LedgerError.invalidIdentity := by
  constructor
  · have h := (deriveKey_spec "123" "google").1 (by decide) (by decide)
    have he : ("123" ++ "@" ++ "google" : String) = "123@google" := by decide
    rw [he] at h
    exact h
  · exact (deriveKey_spec "" "google").2 (Or.inl rfl)

/-- C6: requirePremium fails with premiumRequired exactly when the
requested plan is premium and the user is not premium; in every other
case it returns unit and touches no state. -/
theorem requirePremium_spec (plan : String) (premium : Bool) :
    (requirePremium plan premium = Except.error LedgerError.premiumRequired ↔
      (plan = "premium" ∧ premium = false)) ∧
    (¬(plan = "premium" ∧ premium = false) →
      requirePremium plan premium = Except.ok ()) := by
  unfold requirePremium
  by_cases h : plan = "premium" ∧ premium = false
  · rw [if_pos h]
    exact ⟨⟨fun _ => h, fun _ => rfl⟩, fun hn => absurd h hn⟩
  · rw [if_neg h]
    exact ⟨⟨fun he => Except.noConfusion he, fun hh => absurd hh h⟩,
           fun _ => rfl⟩

/-- Witness for C6 at the three concrete cases. -/
theorem requirePremium_spec_witness :
    requirePremium "premium" false = Except.error LedgerError.premiumRequired ∧
    requirePremium "premium" true = Except.ok () ∧
    requirePremium "free" false = Except.ok () := by
  exact ⟨(requirePremium_spec "premium" false).1.mpr ⟨rfl, rfl⟩,
         (requirePremium_spec "premium" true).2 (by decide),
         (requirePremium_spec "free" false).2 (by decide)⟩

/-- C7 counterexample: the same logged-in user receives different join
dates from GET api me on two calls made on different days, because
src/index.js line 135 computes joinDate from the current time of the
request instead of a stored creation timestamp. -/
theorem apiMe_joinDate_counterexample :
    (apiMe (some demoUser) "2024-05-01T10:00:00.000Z").joinDate ≠
    (apiMe (some demoUser) "2024-05-02T10:00:00.000Z").joinDate := by
  decide

/-- C7 amended: the code stores no per-account creation timestamp; GET
api me reports joinDate as the date part of the current time of each
request, so two calls report the same join date exactly when their
request times share the date part, regardless of the user. -/
theorem apiMe_joinDate_is_request_date (u v : SessionUser)
    (now1 now2 : String) :
    (apiMe (some u) now1).joinDate = some (isoDatePart now1) ∧
    (isoDatePart now1 = isoDatePart now2 →
      (apiMe (some u) now1).joinDate = (apiMe (some v) now2).joinDate) := by
  refine ⟨rfl, fun h => ?_⟩
  show some (isoDatePart now1) = some (isoDatePart now2)
  rw [h]

/-- Witness for the amended C7: two calls within the same day report the
same join date. -/
theorem apiMe_joinDate_is_request_date_witness :
    (apiMe (some demoUser) "2024-05-01T10:00:00.000Z").joinDate =
      some (isoDatePart "2024-05-01T10:00:00.000Z") ∧
    isoDatePart "2024-05-01T10:00:00.000Z" =
      isoDatePart "2024-05-01T23:59:59.000Z" ∧
    (apiMe (some demoUser) "2024-05-01T10:00:00.000Z").joinDate =
      (apiMe (some demoUser) "2024-05-01T23:59:59.000Z").joinDate := by
  have h := apiMe_joinDate_is_request_date demoUser demoUser
    "2024-05-01T10:00:00.000Z" "2024-05-01T23:59:59.000Z"
  exact ⟨h.1, by decide, h.2 (by decide)⟩

/-- C8: each POST api chat handler dispatches the external inference
interaction at most once (never retries), and when that single
interaction throws, the handler answers with an HTTP 500 response
carrying the error message instead of crashing or retrying. -/
theorem apiChat_no_retry (body : ChatBody) (keySet : Bool)
    (infer : AIOutcome) (user : Option SessionUser) :
    (apiChat body keySet infer).2 ≤ 1 ∧
    (apiChatP0 user body infer).2 ≤ 1 ∧
    (∀ m, infer = AIOutcome.err m → messageInvalid body.message = false →
      keySet = true →
      (apiChat body keySet infer).1.status = 500 ∧
      (apiChat body keySet infer).1.error = some (surfaceMsg m)) ∧
    (∀ m u, infer = AIOutcome.err m → user = some u →
      (apiChatP0 user body infer).1.status = 500 ∧
      (apiChatP0 user body infer).1.error = some m) := by
  refine ⟨?_, ?_, ?_, ?_⟩
  · unfold apiChat
    by_cases h : messageInvalid body.message
    · simp [h]
    · cases keySet <;> cases infer <;> simp [h]
  · unfold apiChatP0
    cases user <;> cases infer <;> simp
  · rintro m rfl hv rfl
    unfold apiChat
    simp [hv]
  · rintro m u rfl rfl
    unfold apiChatP0
    simp

/-- Witness for C8: a failing inference call on a valid request yields a
500 response with the surfaced message, with exactly one dispatch. -/
theorem apiChat_no_retry_witness :
    (apiChat { message := some (JSVal.vStr "hi"), actionType := none } true
      (AIOutcome.err "boom")).2 ≤ 1 ∧
    (apiChat { message := some (JSVal.vStr "hi"), actionType := none } true
      (AIOutcome.err "boom")).1.status = 500 ∧
    (apiChat { message := some (JSVal.vStr "hi"), actionType := none } true
      (AIOutcome.err "boom")).1.error = some (surfaceMsg "boom") ∧
    (apiChatP0 (some demoUser)
      { message := some (JSVal.vStr "hi"), actionType := none }
      (AIOutcome.err "boom")).1.status = 500 := by
  have h := apiChat_no_retry
    { message := some (JSVal.vStr "hi"), actionType := none } true
    (AIOutcome.err "boom") (some demoUser)
  refine ⟨h.1, ?_, ?_, ?_⟩
  · exact (h.2.2.1 "boom" rfl (by decide) rfl).1
  · exact (h.2.2.1 "boom" rfl (by decide) rfl).2
  · exact (h.2.2.2 "boom" demoUser rfl rfl).1

/-- Folding saveChatMessage over a full sequence of saves from the empty
history yields exactly the suffix of the last 50 saved entries. -/
theorem foldl_saveChatMessage_eq (l : List ChatEntry) :
    l.foldl saveChatMessage [] = l.drop (l.length - 50) := by
  induction l using List.reverseRecOn with
  | nil => rfl
  | append_singleton l a ih =>
    rw [List.foldl_append, ih]
    simp only [List.foldl_cons, List.foldl_nil]
    unfold saveChatMessage
    by_cases h : l.length ≤ 49
    · have h0 : l.length - 50 = 0 := by omega
      rw [h0, List.drop_zero]
      have hlen : (l ++ [a]).length = l.length + 1 := by simp
      rw [if_neg (by rw [hlen]; omega)]
      rw [hlen]
      have h1 : l.length + 1 - 50 = 0 := by omega
      rw [h1, List.drop_zero]
    · push_neg at h
      have hk : l.length - 50 ≤ l.length := by omega
      have hdlen : ((l.drop (l.length - 50)) ++ [a]).length = 51 := by
        simp only [List.length_append, List.length_drop, List.length_cons,
          List.length_nil]
        omega
      rw [if_pos (by rw [hdlen]; omega), hdlen]
      rw [← List.drop_append_of_le_length hk, List.drop_drop]
      congr 1
      simp only [List.length_append, List.length_cons, List.length_nil]
      omega

/-- C9: for every sequence of saveChatMessage calls on the history of one
user email, the stored history is exactly the 50 most recently saved
entries in save order, hence always holds at most 50 entries. -/
theorem saveChatMessage_last50 (entries : List ChatEntry) :
    entries.foldl saveChatMessage [] =
      entries.drop (entries.length - 50) ∧
    (entries.foldl saveChatMessage []).length ≤ 50 := by
  refine ⟨foldl_saveChatMessage_eq entries, ?_⟩
  rw [foldl_saveChatMessage_eq, List.length_drop]
  omega

/-- Trimming a string made only of whitespace yields the empty string. -/
theorem jsTrim_all_whitespace (s : String)
    (h : ∀ c ∈ s.data, c.isWhitespace = true) : jsTrim s = "" := by
  unfold jsTrim
  rw [List.dropWhile_eq_nil_iff.mpr h]
  decide

/-- A message that is absent, not a string, or whitespace-only is rejected
by the validation test of src/index.js line 163. -/
theorem messageInvalid_of_claim (m : Option JSVal)
    (h : m = none ∨ (∃ v, m = some v ∧ isString v = false) ∨
      (∃ s, m = some (JSVal.vStr s) ∧ ∀ c ∈ s.data, c.isWhitespace = true)) :
    messageInvalid m = true := by
  rcases h with h | ⟨v, rfl, hv⟩ | ⟨s, rfl, hs⟩
  · rw [h]
    rfl
  · cases v with
    | vStr s => simp [isString] at hv
    | vNum n => simp [messageInvalid, isString]
    | vBool b => simp [messageInvalid, isString]
    | vNull => simp [messageInvalid, isString]
  · by_cases hse : s = ""
    · subst hse
      rfl
    · have ht : jsTrim s = "" := jsTrim_all_whitespace s hs
      simp [messageInvalid, truthy, isString, bne, hse, ht]

/-- C10: a POST api chat request whose message field is absent, not a
string, or whitespace-only is answered by the src/index.js handler with
HTTP 400 and the Arabic empty-message error text, and no AI handler is
dispatched. -/
theorem apiChat_invalid_message_400 (body : ChatBody) (keySet : Bool)
    (infer : AIOutcome)
    (h : body.message = none ∨
      (∃ v, body.message = some v ∧ isString v = false) ∨
      (∃ s, body.message = some (JSVal.vStr s) ∧
        ∀ c ∈ s.data, c.isWhitespace = true)) :
    (apiChat body keySet infer).1.status = 400 ∧
    (apiChat body keySet infer).1.error = some errEmptyMessage ∧
    (apiChat body keySet infer).2 = 0 := by
  have hm := messageInvalid_of_claim body.message h
  unfold apiChat
  simp [hm]

/-- Witness for C10: an absent message field is rejected with 400 and no
dispatch. -/
theorem apiChat_invalid_message_400_witness :
    (apiChat { message := none, actionType := none } true
      (AIOutcome.ok { payload := "r" })).1.status = 400 ∧
    (apiChat { message := none, actionType := none } true
      (AIOutcome.ok { payload := "r" })).1.error = some errEmptyMessage ∧
    (apiChat { message := none, actionType := none } true
      (AIOutcome.ok { payload := "r" })).2 = 0 := by
  exact apiChat_invalid_message_400 { message := none, actionType := none }
    true (AIOutcome.ok { payload := "r" }) (Or.inl rfl)
